import Mathlib

/-!
Verification development for the road-centerline extraction pipeline
(`Service/gis_modules/...`).  Python floats are modelled as exact rationals;
geometry-kernel operations (shapely) that the verified logic only consumes
through their results are abstracted as explicit function parameters.  All
discrete control flow (thresholds, guards, loops, graph mutation) is
translated directly from the source files named in each doc comment.
-/

namespace RoadSkel

/-- A 2-D point / node key, as the Python code's `Tuple[float, float]`. -/
abbrev Q2 : Type := ℚ × ℚ

/-- Python `round` to an integer: round-half-to-even (banker's rounding). -/
def pyRoundZ (q : ℚ) : ℤ :=
  let f : ℤ := ⌊q⌋
  let r : ℚ := q - f
  if r < 1/2 then f
  else if 1/2 < r then f + 1
  else if f % 2 = 0 then f else f + 1

/-- Python `round(x, 3)`: 3-decimal rounding used for all coordinate keys
(`COORD_PRECISION = 3` in `graph_builder.py`, `self._precision = 3` in
`topology/strategies.py`). -/
def pyRound3 (q : ℚ) : ℚ := (pyRoundZ (q * 1000) : ℚ) / 1000

/-- Round both coordinates of a point, as `self._round_xy` /
the per-coordinate `round(float(x), 3)` loops. -/
def round2 (p : Q2) : Q2 := (pyRound3 p.1, pyRound3 p.2)

theorem pyRoundZ_intCast (n : ℤ) : pyRoundZ (n : ℚ) = n := by
  unfold pyRoundZ
  simp [Int.floor_intCast]

theorem pyRound3_fixed (k : ℤ) : pyRound3 ((k : ℚ) / 1000) = (k : ℚ) / 1000 := by
  unfold pyRound3
  have h : ((k : ℚ) / 1000) * 1000 = (k : ℚ) := by ring
  rw [h, pyRoundZ_intCast]

theorem pyRound3_idem (q : ℚ) : pyRound3 (pyRound3 q) = pyRound3 q := by
  unfold pyRound3
  have h : ((pyRoundZ (q * 1000) : ℚ) / 1000) * 1000 = (pyRoundZ (q * 1000) : ℚ) := by
    ring
  rw [h, pyRoundZ_intCast]

theorem round2_idem (p : Q2) : round2 (round2 p) = round2 p := by
  unfold round2
  simp [pyRound3_idem]

/-- Python tuple comparison `u <= v` on coordinate pairs (lexicographic);
used for canonical edge keys `(u, v) if u <= v else (v, u)`. -/
def lexLE (u v : Q2) : Bool := decide (u.1 < v.1 ∨ (u.1 = v.1 ∧ u.2 ≤ v.2))

/-- Canonical undirected edge key as built in the pruners. -/
def canonKey (u v : Q2) : Q2 × Q2 := if lexLE u v then (u, v) else (v, u)

/-- All ordered pairs `(eps[i], eps[j])` with `i < j`, in the iteration order
of the Python double loop `for i, a in enumerate(eps): for b in eps[i+1:]`. -/
def pairsOf : List Q2 → List (Q2 × Q2)
  | [] => []
  | x :: xs => xs.map (fun y => (x, y)) ++ pairsOf xs

/-- Python two-argument `max`: `a if a >= b else b`.  (Defined by `if` so
that it also evaluates by kernel/`simp` reduction.) -/
def pyMax (a b : ℚ) : ℚ := if b ≤ a then a else b

/-- Python two-argument `min`: `a if a <= b else b`. -/
def pyMin (a b : ℚ) : ℚ := if a ≤ b then a else b

/-- `clamp` from `SkeletonPolicy._clamp`: `max(lo, min(hi, v))`. -/
def clamp (v lo hi : ℚ) : ℚ := pyMax lo (pyMin hi v)

/-- Threshold set of `SkeletonPolicy` (`skeleton/policy.py`, the frozen
dataclass fields).  Integer-valued fields are kept as `ℤ`/`ℕ` per source. -/
structure SkeletonPolicy where
  name : String
  protrusion_clean_m : ℚ
  sharp_angle_simplify_m : ℚ
  min_lane_width_m : ℚ
  voronoi_density_interval_m : ℚ
  merge_shared_ratio_th : ℚ
  merge_distance_min_m : ℚ
  merge_distance_lane_width_ratio : ℚ
  pair_sample_step_m : ℚ
  pair_axis_bin_m : ℚ
  pair_segment_break_bin_ratio : ℚ
  boundary_sample_min_step_m : ℚ
  graph_smooth_iterations : ℕ
  graph_smooth_alpha : ℚ
  graph_smooth_target_shift_m : ℚ
  reconnect_search_radius_m : ℚ
  reconnect_angle_deg : ℚ
  reconnect_boundary_buffer_m : ℚ
  reconnect_min_inside_ratio : ℚ
  parallel_close_dist_factor : ℚ
  parallel_angle_deg : ℚ
  parallel_offset_factor : ℚ
  postprocess_min_len_m : ℚ
  direction_smooth_window : ℕ
  resample_step_m : ℚ
  resample_min_step_m : ℚ
  prune_ratio_limit : ℚ
  boundary_min_radius_hit_m : ℚ
  boundary_max_hit_ratio : ℚ
  boundary_max_abs_hits : ℕ
  boundary_remove_leaf_edges_count : ℕ
  boundary_protect_component_min_total_len_m : ℚ
  boundary_protect_component_max_radius_m : ℚ
  boundary_hard_min_radius_m : ℚ
  component_min_total_len_m : ℚ
  component_protect_max_radius_m : ℚ
  spur_abs_max_len_m : ℚ
  spur_rel_ratio : ℚ

/-- Lines 59-62 of `policy.py`:
`vals = sorted([float(w) for w in widths if w and w > 0])`,
`if not vals: vals = [8.0]`, `median_w = vals[len(vals) // 2]`.
(Over exact rationals `w and w > 0` is just `0 < w`.) -/
def widthMedian (widths : List ℚ) : ℚ :=
  let vals := (widths.filter (fun w => decide (0 < w))).insertionSort (· ≤ ·)
  let vals := if vals = [] then [(8 : ℚ)] else vals
  vals.getD (vals.length / 2) 0

/-- `SkeletonPolicy.from_width_distribution` (`policy.py` lines 57-115). -/
def SkeletonPolicy.from_width_distribution (widths : List ℚ) : SkeletonPolicy :=
  let median_w := widthMedian widths
  let is_rural := decide (12 ≤ median_w)
  let min_lane_width := clamp (median_w * 12/100) (14/10) (35/10)
  let pair_step := clamp (median_w * 16/100) 1 3
  let axis_bin := clamp (median_w * 10/100) (8/10) 2
  let protrusion := clamp (median_w * 2/100) (15/100) (5/10)
  let sharp := clamp (median_w * 18/1000) (1/10) (45/100)
  let reconnect_r := clamp (median_w * 9/10) 4 14
  let post_min_len := clamp (median_w * 15/100) 1 4
  let resample_step := clamp (median_w * 12/100) (8/10) (25/10)
  { name := if is_rural then "rural" else "urban"
    protrusion_clean_m := protrusion
    sharp_angle_simplify_m := sharp
    min_lane_width_m := min_lane_width
    voronoi_density_interval_m := clamp (median_w * 8/100) (35/100) (12/10)
    merge_shared_ratio_th := clamp (if is_rural then 6/100 else 8/100) (4/100) (15/100)
    merge_distance_min_m := clamp (5/10) (1/10) 2
    merge_distance_lane_width_ratio := clamp (7/10) (2/10) 2
    pair_sample_step_m := pair_step
    pair_axis_bin_m := axis_bin
    pair_segment_break_bin_ratio := clamp 3 1 10
    boundary_sample_min_step_m := clamp (5/10) (1/10) 2
    graph_smooth_iterations := if is_rural then 3 else 2
    graph_smooth_alpha := if is_rural then 30/100 else 35/100
    graph_smooth_target_shift_m := clamp (5/10) (1/10) 2
    reconnect_search_radius_m := reconnect_r
    reconnect_angle_deg := if is_rural then 25 else 20
    reconnect_boundary_buffer_m := clamp (median_w * 5/100) (1/10) 1
    reconnect_min_inside_ratio := clamp (97/100) (8/10) 1
    parallel_close_dist_factor := clamp (8/10) (5/10) (12/10)
    parallel_angle_deg := clamp 12 5 25
    parallel_offset_factor := clamp (2/10) (5/100) (5/10)
    postprocess_min_len_m := post_min_len
    direction_smooth_window := if is_rural then 5 else 4
    resample_step_m := resample_step
    resample_min_step_m := clamp (4/10) (1/10) 2
    prune_ratio_limit := clamp (if is_rural then 18/10 else 13/10) 1 3
    boundary_min_radius_hit_m := clamp (if is_rural then 22/100 else 12/100) (5/100) (6/10)
    boundary_max_hit_ratio := clamp (if is_rural then 30/100 else 45/100) (1/10) (8/10)
    boundary_max_abs_hits := if is_rural then 3 else 4
    boundary_remove_leaf_edges_count := 2
    boundary_protect_component_min_total_len_m := clamp 30 5 120
    boundary_protect_component_max_radius_m := clamp 1 (2/10) 4
    boundary_hard_min_radius_m := clamp (5/100) (1/100) (2/10)
    component_min_total_len_m := clamp (if is_rural then 18 else 10) 3 80
    component_protect_max_radius_m := clamp 1 (2/10) 4
    spur_abs_max_len_m := clamp (if is_rural then 35/10 else 2) (5/10) 10
    spur_rel_ratio := clamp (if is_rural then 25/100 else 15/100) (5/100) (6/10) }

/-- Attribute names available on every `SkeletonPolicy` instance: the frozen
dataclass fields of `policy.py` plus its four `@property` aliases
(lines 118-132).  A frozen dataclass admits no other instance attributes, so
Python `getattr` fails exactly outside this list. -/
def skeletonPolicyAttrNames : List String :=
  ["name", "protrusion_clean_m", "sharp_angle_simplify_m", "min_lane_width_m",
   "voronoi_density_interval_m", "merge_shared_ratio_th", "merge_distance_min_m",
   "merge_distance_lane_width_ratio", "pair_sample_step_m", "pair_axis_bin_m",
   "pair_segment_break_bin_ratio", "boundary_sample_min_step_m",
   "graph_smooth_iterations", "graph_smooth_alpha", "graph_smooth_target_shift_m",
   "reconnect_search_radius_m", "reconnect_angle_deg", "reconnect_boundary_buffer_m",
   "reconnect_min_inside_ratio", "parallel_close_dist_factor", "parallel_angle_deg",
   "parallel_offset_factor", "postprocess_min_len_m", "direction_smooth_window",
   "resample_step_m", "resample_min_step_m", "prune_ratio_limit",
   "boundary_min_radius_hit_m", "boundary_max_hit_ratio", "boundary_max_abs_hits",
   "boundary_remove_leaf_edges_count", "boundary_protect_component_min_total_len_m",
   "boundary_protect_component_max_radius_m", "boundary_hard_min_radius_m",
   "component_min_total_len_m", "component_protect_max_radius_m",
   "spur_abs_max_len_m", "spur_rel_ratio",
   "merge_shared_boundary_ratio_th", "parallel_close_distance_ratio",
   "parallel_max_angle_deg", "parallel_separation_offset_ratio"]

/-- Python `hasattr(policy, s)` for a `SkeletonPolicy` instance. -/
def skeletonPolicyHasAttr (s : String) : Bool := skeletonPolicyAttrNames.contains s

/-- C6.  `SkeletonPolicy.from_width_distribution` names the regime `rural`
iff the (source-computed) median of the positive widths is at least 12, and
an input with no positive widths defaults the median to 8, hence `urban`. -/
theorem from_width_distribution_regime (widths : List ℚ) :
    ((SkeletonPolicy.from_width_distribution widths).name = "rural" ↔
      12 ≤ widthMedian widths)
    ∧ ((widths.filter (fun w => decide (0 < w))) = [] →
      (SkeletonPolicy.from_width_distribution widths).name = "urban") := by
  constructor
  · by_cases h : 12 ≤ widthMedian widths
    · simp [SkeletonPolicy.from_width_distribution, h]
    · simp [SkeletonPolicy.from_width_distribution, h]
  · intro hf
    have hm : widthMedian widths = 8 := by
      unfold widthMedian
      rw [hf]
      rfl
    simp [SkeletonPolicy.from_width_distribution, hm]
    norm_num

/-- Witness for `from_width_distribution_regime`: the empty width list yields
the urban regime. -/
theorem from_width_distribution_regime_witness :
    (SkeletonPolicy.from_width_distribution []).name = "urban" :=
  (from_width_distribution_regime []).2 rfl

/-- Module constant `PRUNE_RATIO_LIMIT = 1.6` (`pruners.py` line 15), the
only ratio `RatioPruner.execute` compares leaf-path length against. -/
def PRUNE_RATIO_LIMIT : ℚ := 16/10

/-- Parameter count (excluding `self`) of `RatioPruner.__init__`
(`pruners.py`: `def __init__(self, logger: Log)`). -/
def ratioPrunerInitParams : ℕ := 1

/-- Argument count the processor passes when building `RatioPruner`
(`processor.py` line 55: `RatioPruner(self._logger, policy)`); the same
two-argument call is made for all four pruners. -/
def processorRatioPrunerArgs : ℕ := 2

/-- C3.  The ratio actually used by `RatioPruner` is the hard-coded 1.6; the
policy-derived `prune_ratio_limit` is 1.3 (urban, e.g. median 8) or 1.8
(rural, e.g. median 16) and is never equal to it, and the processor passes
the policy to a pruner constructor that does not accept it. -/
theorem ratioPruner_ignores_policy_ratio :
    PRUNE_RATIO_LIMIT = 16/10
    ∧ (SkeletonPolicy.from_width_distribution [8]).prune_ratio_limit = 13/10
    ∧ (SkeletonPolicy.from_width_distribution [16]).prune_ratio_limit = 18/10
    ∧ PRUNE_RATIO_LIMIT ≠ (SkeletonPolicy.from_width_distribution [8]).prune_ratio_limit
    ∧ PRUNE_RATIO_LIMIT ≠ (SkeletonPolicy.from_width_distribution [16]).prune_ratio_limit
    ∧ ratioPrunerInitParams ≠ processorRatioPrunerArgs := by
  refine ⟨rfl, ?_, ?_, ?_, ?_, by decide⟩ <;>
    norm_num [SkeletonPolicy.from_width_distribution, widthMedian, clamp, pyMax, pyMin,
      PRUNE_RATIO_LIMIT, List.insertionSort, List.orderedInsert]

/-- Consecutive-duplicate removal from `CoordinateSnapper._round_line`
(`topology/strategies.py` lines 52-55).  The Python loop keeps the first
point of each run of equal points; keeping one representative per run is
what this recursion computes. -/
def dedupConsec : List Q2 → List Q2
  | [] => []
  | [a] => [a]
  | a :: b :: rest => if a = b then dedupConsec (b :: rest) else a :: dedupConsec (b :: rest)

theorem dedupConsec_head (b : Q2) (rest : List Q2) :
    (dedupConsec (b :: rest)).head? = some b := by
  induction rest generalizing b with
  | nil => rfl
  | cons c rest ih =>
    by_cases h : b = c
    · simp only [dedupConsec, if_pos h]
      rw [ih c, h]
    · simp only [dedupConsec, if_neg h, List.head?_cons]

theorem dedupConsec_chain (l : List Q2) : (dedupConsec l).Chain' (· ≠ ·) := by
  induction l with
  | nil => simp [dedupConsec]
  | cons a t ih =>
    cases t with
    | nil => simp [dedupConsec]
    | cons b rest =>
      by_cases h : a = b
      · simpa only [dedupConsec, if_pos h] using ih
      · simp only [dedupConsec, if_neg h]
        rw [List.chain'_cons']
        refine ⟨?_, ih⟩
        intro y hy
        rw [dedupConsec_head b rest] at hy
        simp only [Option.mem_def, Option.some.injEq] at hy
        intro hay
        exact h (hay.trans hy.symm)

theorem dedupConsec_of_chain (l : List Q2) (h : l.Chain' (· ≠ ·)) :
    dedupConsec l = l := by
  induction l with
  | nil => rfl
  | cons a t ih =>
    cases t with
    | nil => rfl
    | cons b rest =>
      rw [List.chain'_cons] at h
      simp only [dedupConsec, if_neg h.1]
      rw [ih h.2]

theorem dedupConsec_mem {x : Q2} {l : List Q2} (h : x ∈ dedupConsec l) : x ∈ l := by
  induction l with
  | nil => simp [dedupConsec] at h
  | cons a t ih =>
    cases t with
    | nil => simpa [dedupConsec] using h
    | cons b rest =>
      by_cases hab : a = b
      · rw [dedupConsec, if_pos hab] at h
        exact List.mem_cons_of_mem a (ih h)
      · rw [dedupConsec, if_neg hab] at h
        rcases List.mem_cons.mp h with h1 | h2
        · exact h1 ▸ List.mem_cons_self a _
        · exact List.mem_cons_of_mem a (ih h2)

/-- `CoordinateSnapper._round_line` (`strategies.py` lines 49-58): round every
coordinate to 3 decimals, drop consecutive duplicates; if fewer than 2 points
remain, the ORIGINAL line is returned unchanged. -/
def roundLine (coords : List Q2) : List Q2 :=
  if (dedupConsec (coords.map round2)).length < 2 then coords
  else dedupConsec (coords.map round2)

theorem roundLine_idem (coords : List Q2) : roundLine (roundLine coords) = roundLine coords := by
  by_cases h : (dedupConsec (coords.map round2)).length < 2
  · have h1 : roundLine coords = coords := by rw [roundLine, if_pos h]
    rw [h1]
    exact h1
  · have h1 : roundLine coords = dedupConsec (coords.map round2) := by
      rw [roundLine, if_neg h]
    have hfix : ∀ x ∈ dedupConsec (coords.map round2), round2 x = x := by
      intro x hx
      rcases List.mem_map.mp (dedupConsec_mem hx) with ⟨y, _, rfl⟩
      exact round2_idem y
    have hmap : (dedupConsec (coords.map round2)).map round2
        = dedupConsec (coords.map round2) := by
      calc (dedupConsec (coords.map round2)).map round2
          = (dedupConsec (coords.map round2)).map id := List.map_congr_left hfix
        _ = dedupConsec (coords.map round2) := List.map_id _
    rw [h1, roundLine, hmap, dedupConsec_of_chain _ (dedupConsec_chain _), if_neg h]

theorem roundLine_ne_nil {coords : List Q2} (h : coords ≠ []) : roundLine coords ≠ [] := by
  rw [roundLine]
  by_cases hl : (dedupConsec (coords.map round2)).length < 2
  · rw [if_pos hl]; exact h
  · rw [if_neg hl]
    intro hnil
    rw [hnil] at hl
    exact hl (by norm_num)

/-- Geometry rows as seen by the topology snap stage: `LineString`,
`MultiLineString`, or any other geometry object (returned unchanged by
`_round_coordinates`, as is a `None`/empty geometry). -/
inductive PyGeometry where
  | lineString (coords : List Q2)
  | multiLineString (lines : List (List Q2))
  | other

/-- `CoordinateSnapper._round_coordinates` (`strategies.py` lines 38-47):
empty geometries are returned unchanged (`geom.is_empty` is `coords = []`
for a `LineString` and `no members` for a shapely multi-part geometry,
whose members are always non-empty); otherwise each `LineString` is rounded
via `_round_line`, a `MultiLineString` member-wise, anything else returned
as is. -/
def roundCoordinates : PyGeometry → PyGeometry
  | .lineString c =>
    if c.isEmpty then .lineString c else .lineString (roundLine c)
  | .multiLineString ls =>
    if ls.isEmpty then .multiLineString ls else .multiLineString (ls.map roundLine)
  | .other => .other

/-- `CoordinateSnapper.execute` (`strategies.py` lines 28-36): map the
rounding over every geometry row (the early return on an empty frame equals
mapping over no rows). -/
def snapperExecute (gs : List PyGeometry) : List PyGeometry := gs.map roundCoordinates

theorem roundCoordinates_idem (g : PyGeometry) :
    roundCoordinates (roundCoordinates g) = roundCoordinates g := by
  cases g with
  | lineString c =>
    by_cases hc : c.isEmpty
    · simp [roundCoordinates, hc]
    · have hc' : c ≠ [] := by simpa [List.isEmpty_iff] using hc
      have h2 : (roundLine c).isEmpty = false := by
        simpa [List.isEmpty_iff] using roundLine_ne_nil hc'
      simp [roundCoordinates, hc, h2, roundLine_idem c]
  | multiLineString ls =>
    cases ls with
    | nil => rfl
    | cons a t =>
      simp only [roundCoordinates, List.map_cons, List.isEmpty_cons, Bool.false_eq_true,
        if_false, PyGeometry.multiLineString.injEq, List.map_map, List.cons.injEq]
      exact ⟨roundLine_idem a, List.map_congr_left (fun l _ => roundLine_idem l)⟩
  | other => rfl

/-- C8.  Coordinate snapping is idempotent: applying `CoordinateSnapper`'s
3-decimal rounding with consecutive-duplicate removal twice produces exactly
the coordinates produced by applying it once, for every line collection. -/
theorem snapperExecute_idem (gs : List PyGeometry) :
    snapperExecute (snapperExecute gs) = snapperExecute gs := by
  unfold snapperExecute
  rw [List.map_map]
  exact List.map_congr_left (fun g _ => roundCoordinates_idem g)

/-- Python `min(list)` / `max(list)` with the guard default the source uses
for empty sequences (left fold keeping the first extremal element). -/
def pyMinList (l : List ℚ) (dflt : ℚ) : ℚ :=
  match l with
  | [] => dflt
  | x :: xs => xs.foldl pyMin x

def pyMaxList (l : List ℚ) (dflt : ℚ) : ℚ :=
  match l with
  | [] => dflt
  | x :: xs => xs.foldl pyMax x

/-- `MIN_RADIUS = 0.1`, the default node radius (`pruners.py` line 16,
`graph_builder.py` line 20). -/
def MIN_RADIUS : ℚ := 1/10

/-- An edge of the skeleton `networkx` graph: endpoint node keys plus the
`weight` attribute (set to the edge geometry's length by the builder; the
`geometry` attribute itself is never read by the pruner/reconnect logic
modelled here beyond its length, so it is not carried). -/
structure NXEdge where
  u : Q2
  v : Q2
  w : ℚ

/-- The undirected simple `networkx` graph mutated in place by the skeleton
stages: node keys in insertion order with their optional `radius` attribute,
and the edge list in insertion order. -/
structure NXGraph where
  nodes : List (Q2 × Option ℚ)
  edges : List NXEdge

def nodeKeys (g : NXGraph) : List Q2 := g.nodes.map Prod.fst

/-- `graph.nodes[n].get("radius", MIN_RADIUS)`. -/
def radiusOf (g : NXGraph) (n : Q2) : ℚ :=
  match g.nodes.find? (fun p => decide (p.1 = n)) with
  | some (_, some r) => r
  | _ => MIN_RADIUS

/-- `graph.degree(n)` (each incident edge counts once per endpoint). -/
def degree (g : NXGraph) (n : Q2) : ℕ :=
  (g.edges.map (fun e => (if e.u = n then 1 else 0) + (if e.v = n then 1 else 0))).sum

/-- `graph.neighbors(n)`, in edge insertion order. -/
def neighbors (g : NXGraph) (n : Q2) : List Q2 :=
  g.edges.foldr
    (fun e acc => if e.u = n then e.v :: acc else if e.v = n then e.u :: acc else acc) []

def hasEdge (g : NXGraph) (a b : Q2) : Bool :=
  g.edges.any (fun e => decide ((e.u = a ∧ e.v = b) ∨ (e.u = b ∧ e.v = a)))

/-- `graph.edges[u, v].get("weight", 0.0)`. -/
def weightBetween (g : NXGraph) (a b : Q2) : ℚ :=
  match g.edges.find? (fun e => decide ((e.u = a ∧ e.v = b) ∨ (e.u = b ∧ e.v = a))) with
  | some e => e.w
  | none => 0

/-- `[n for n, d in graph.degree() if d == 1]`. -/
def leafNodes (g : NXGraph) : List Q2 :=
  (g.nodes.filter (fun p => decide (degree g p.1 = 1))).map Prod.fst

/-- `_EdgePath` (`pruners.py` lines 19-26). -/
structure EdgePathE where
  nodes : List Q2
  edges : List (Q2 × Q2)
  total_length : ℚ
  junction_node : Q2
  junction_radius : ℚ

/-- Loop body of `_trace_leaf_to_junction` (`pruners.py` lines 52-81).  The
walk from a leaf is deterministic (at most one unvisited neighbor at every
degree-≤2 step), and visits a fresh node each step, so fuel
`|nodes| + 1` always suffices; `none` only signals exhausted fuel. -/
def traceGo (g : NXGraph) :
    ℕ → Q2 → List Q2 → List Q2 → List (Q2 × Q2) → ℚ → Option EdgePathE
  | 0, _, _, _, _, _ => none
  | fuel+1, current, visited, nodesAcc, edgesAcc, total =>
    match (neighbors g current).filter (fun m => decide (m ∉ visited)) with
    | [] => some ⟨nodesAcc, edgesAcc, total, current, radiusOf g current⟩
    | nxt :: _ =>
      let total2 := total + weightBetween g current nxt
      let edges2 := edgesAcc ++ [(current, nxt)]
      let visited2 := nxt :: visited
      let nodes2 := nodesAcc ++ [nxt]
      if 3 ≤ degree g nxt then some ⟨nodes2, edges2, total2, nxt, radiusOf g nxt⟩
      else traceGo g fuel nxt visited2 nodes2 edges2 total2

def traceLeafToJunction (g : NXGraph) (leaf : Q2) : Option EdgePathE :=
  traceGo g (g.nodes.length + 1) leaf [leaf] [leaf] [] 0

def insertAbsent (x : Q2) (l : List Q2) : List Q2 := if x ∈ l then l else l ++ [x]

def expandOnce (g : NXGraph) (s : List Q2) : List Q2 :=
  s.foldl (fun acc n => (neighbors g n).foldl (fun acc2 m => insertAbsent m acc2) acc) s

def reachExpand (g : NXGraph) : ℕ → List Q2 → List Q2
  | 0, s => s
  | k+1, s => reachExpand g k (expandOnce g s)

/-- `nx.connected_components`: the component of `n`, as the breadth-first
closure (saturated after at most `|nodes|` expansions). -/
def reachableFrom (g : NXGraph) (n : Q2) : List Q2 :=
  reachExpand g g.nodes.length [n]

/-- Per-component `total_len` of `_compute_component_meta` (`pruners.py`
lines 213-222): the weights of the component's edges, each edge once. -/
def compTotalLen (g : NXGraph) (n : Q2) : ℚ :=
  ((g.edges.filter
      (fun e => decide (e.u ∈ reachableFrom g n ∧ e.v ∈ reachableFrom g n))).map
    (fun e => e.w)).sum

/-- Per-component `max_radius` of `_compute_component_meta`. -/
def compMaxRadius (g : NXGraph) (n : Q2) : ℚ :=
  pyMaxList ((reachableFrom g n).map (radiusOf g)) 0

/-- `_component_id_of_node` over the cached `comp_meta` of graph `g0`:
the meta of the component containing `n` in `g0`, or `none` when `n` is in
no cached component. -/
def metaLookup (g0 : NXGraph) (n : Q2) : Option (ℚ × ℚ) :=
  if n ∈ nodeKeys g0 then some (compTotalLen g0 n, compMaxRadius g0 n) else none

/-- Judgement of `BoundaryNearPruner.execute` for one leaf (`pruners.py`
lines 156-185): protected component, hard removal of the whole path, soft
removal of the first `remove_leaf_edges_count = 2` edges, or no mark.
Thresholds are the `_BoundaryNearPolicy` defaults the pruner instantiates
(lines 28-37): hit radius 0.20, hit ratio 0.30, abs hits 3, protect
total-length 30.0, protect max-radius 1.0, hard floor 0.05. -/
inductive BNJudge where
  | noMark
  | protectedComp
  | hard (es : List (Q2 × Q2))
  | soft (es : List (Q2 × Q2))

def boundaryNearJudge (g : NXGraph) (meta : Q2 → Option (ℚ × ℚ)) (leaf : Q2) : BNJudge :=
  match traceLeafToJunction g leaf with
  | none => .noMark
  | some path =>
    if path.edges = [] then .noMark
    else
      let prot : Bool :=
        match meta leaf with
        | some m => decide (30 ≤ m.1) || decide (1 ≤ m.2)
        | none => false
      if prot then .protectedComp
      else
        let radii := path.nodes.map (radiusOf g)
        let min_r := pyMinList radii MIN_RADIUS
        if min_r ≤ 1/20 then .hard path.edges
        else
          let hit := (radii.filter (fun r => decide (r ≤ 1/5))).length
          let hit_ratio : ℚ := (hit : ℚ) / ((max radii.length 1 : ℕ) : ℚ)
          if 3/10 ≤ hit_ratio ∨ 3 ≤ hit then .soft (path.edges.take 2)
          else .noMark

/-- Accumulated marks of one pass of the `while` loop of
`BoundaryNearPruner.execute` (lines 147-186). -/
structure BNMarks where
  hard : List (Q2 × Q2)
  soft : List (Q2 × Q2)
  processed : Bool

def boundaryNearPass (g : NXGraph) (meta : Q2 → Option (ℚ × ℚ)) : BNMarks :=
  (leafNodes g).foldl
    (fun acc leaf =>
      match boundaryNearJudge g meta leaf with
      | .hard es => ⟨acc.hard ++ es, acc.soft, true⟩
      | .soft es => ⟨acc.hard, acc.soft ++ es, true⟩
      | _ => acc)
    ⟨[], [], false⟩

/-- `graph.remove_edges_from` over the canonicalised key set
(`(u, v) if u <= v else (v, u)`). -/
def removeEdgeKeys (g : NXGraph) (ks : List (Q2 × Q2)) : NXGraph :=
  { g with edges := g.edges.filter (fun e => decide (canonKey e.u e.v ∉ ks)) }

/-- Drop `nx.isolates` (degree-0 nodes) after an edge removal. -/
def removeIsolates (g : NXGraph) : NXGraph :=
  { g with nodes := g.nodes.filter (fun p => decide (0 < degree g p.1)) }

def bnCanon (es : List (Q2 × Q2)) : List (Q2 × Q2) := es.map (fun p => canonKey p.1 p.2)

/-- The `while True` loop of `BoundaryNearPruner.execute`: every continuing
pass removes at least one edge, so fuel `|edges| + 1` reaches the break. -/
def boundaryNearLoop (meta : Q2 → Option (ℚ × ℚ)) : ℕ → NXGraph → NXGraph
  | 0, g => g
  | fuel+1, g =>
    if leafNodes g = [] then g
    else
      let marks := boundaryNearPass g meta
      if ¬ marks.processed ∨ (marks.hard = [] ∧ marks.soft = []) then g
      else
        let g1 := removeEdgeKeys g (bnCanon marks.hard)
        let g2 := removeEdgeKeys g1 (bnCanon marks.soft)
        boundaryNearLoop meta fuel (removeIsolates g2)

/-- `BoundaryNearPruner.execute` (`pruners.py` lines 138-211): component
meta is computed once, on the input graph, before the loop. -/
def boundaryNearExecute (g : NXGraph) : NXGraph :=
  boundaryNearLoop (metaLookup g) (g.edges.length + 1) g

/-- A concrete pruner input: a tail `(10,0) - (11,0) - (12,0)` into the
degree-3 node `(12,0)` of the triangle `(12,0),(12,1),(13,1)`; all edge
weights 1.  The interior tail node `(11,0)` has radius 0.04 (at most the
0.05 hard floor); every other node has radius 0.5.  The only leaf is
`(10,0)`. -/
def G0 : NXGraph :=
  { nodes := [((10,0), some (1/2)), ((11,0), some (1/25)), ((12,0), some (1/2)),
              ((12,1), some (1/2)), ((13,1), some (1/2))]
    edges := [⟨(10,0),(11,0),1⟩, ⟨(11,0),(12,0),1⟩, ⟨(12,0),(12,1),1⟩,
              ⟨(12,1),(13,1),1⟩, ⟨(13,1),(12,0),1⟩] }

/-- The graph left after `BoundaryNearPruner` hard-removes the tail of `G0`:
the triangle alone. -/
def G1 : NXGraph :=
  { nodes := [((12,0), some (1/2)), ((12,1), some (1/2)), ((13,1), some (1/2))]
    edges := [⟨(12,0),(12,1),1⟩, ⟨(12,1),(13,1),1⟩, ⟨(13,1),(12,0),1⟩] }

theorem g0_nb_a : neighbors G0 (10,0) = [(11,0)] := by norm_num [neighbors, G0]

theorem g0_nb_b : neighbors G0 (11,0) = [(10,0),(12,0)] := by norm_num [neighbors, G0]

theorem g0_nb_c : neighbors G0 (12,0) = [(11,0),(12,1),(13,1)] := by norm_num [neighbors, G0]

theorem g0_nb_d : neighbors G0 (12,1) = [(12,0),(13,1)] := by norm_num [neighbors, G0]

theorem g0_nb_e : neighbors G0 (13,1) = [(12,1),(12,0)] := by norm_num [neighbors, G0]

theorem g0_deg_b : degree G0 (11,0) = 2 := by norm_num [degree, G0]

theorem g0_deg_c : degree G0 (12,0) = 3 := by norm_num [degree, G0]

theorem g0_w_ab : weightBetween G0 (10,0) (11,0) = 1 := by norm_num [weightBetween, G0]

theorem g0_w_bc : weightBetween G0 (11,0) (12,0) = 1 := by norm_num [weightBetween, G0]

theorem g0_rad_a : radiusOf G0 (10,0) = 1/2 := by norm_num [radiusOf, G0]

theorem g0_rad_b : radiusOf G0 (11,0) = 1/25 := by norm_num [radiusOf, G0]

theorem g0_rad_c : radiusOf G0 (12,0) = 1/2 := by norm_num [radiusOf, G0]

theorem g0_trace_a : traceLeafToJunction G0 (10,0) =
    some ⟨[(10,0),(11,0),(12,0)], [((10,0),(11,0)),((11,0),(12,0))], 2, (12,0), 1/2⟩ := by
  have hn : G0.nodes.length = 5 := by norm_num [G0]
  rw [traceLeafToJunction, hn]
  norm_num [traceGo, g0_nb_a, g0_nb_b, g0_deg_b, g0_deg_c, g0_w_ab, g0_w_bc, g0_rad_c]

theorem g0_exp1 : expandOnce G0 [(10,0)] = [(10,0),(11,0)] := by
  norm_num [expandOnce, insertAbsent, g0_nb_a]

theorem g0_exp2 : expandOnce G0 [(10,0),(11,0)] = [(10,0),(11,0),(12,0)] := by
  norm_num [expandOnce, insertAbsent, g0_nb_a, g0_nb_b]

theorem g0_exp3 : expandOnce G0 [(10,0),(11,0),(12,0)]
    = [(10,0),(11,0),(12,0),(12,1),(13,1)] := by
  norm_num [expandOnce, insertAbsent, g0_nb_a, g0_nb_b, g0_nb_c]

theorem g0_exp4 : expandOnce G0 [(10,0),(11,0),(12,0),(12,1),(13,1)]
    = [(10,0),(11,0),(12,0),(12,1),(13,1)] := by
  norm_num [expandOnce, insertAbsent, g0_nb_a, g0_nb_b, g0_nb_c, g0_nb_d, g0_nb_e]

theorem g0_reach_a : reachableFrom G0 (10,0) = [(10,0),(11,0),(12,0),(12,1),(13,1)] := by
  have hn : G0.nodes.length = 5 := by norm_num [G0]
  rw [reachableFrom, hn]
  norm_num [reachExpand, g0_exp1, g0_exp2, g0_exp3, g0_exp4]

theorem g0_meta_a : metaLookup G0 (10,0) = some (5, 1/2) := by
  rw [metaLookup, if_pos (show (10,0) ∈ nodeKeys G0 by norm_num [nodeKeys, G0])]
  simp only [compTotalLen, compMaxRadius, g0_reach_a]
  norm_num [G0, radiusOf, pyMaxList, pyMax]

theorem g0_judge_a : boundaryNearJudge G0 (metaLookup G0) (10,0)
    = BNJudge.hard [((10,0),(11,0)),((11,0),(12,0))] := by
  norm_num [boundaryNearJudge, g0_trace_a, g0_meta_a, g0_rad_a, g0_rad_b, g0_rad_c,
    pyMinList, pyMin, MIN_RADIUS]
  exact fun h => List.noConfusion h

theorem g0_leaves : leafNodes G0 = [(10,0)] := by norm_num [leafNodes, degree, G0]

theorem g1_leaves : leafNodes G1 = [] := by norm_num [leafNodes, degree, G1]

theorem g0_pass : boundaryNearPass G0 (metaLookup G0)
    = ⟨[((10,0),(11,0)),((11,0),(12,0))], [], true⟩ := by
  norm_num [boundaryNearPass, g0_leaves, g0_judge_a]

theorem g0_removal :
    removeIsolates (removeEdgeKeys
      (removeEdgeKeys G0 (bnCanon [((10,0),(11,0)),((11,0),(12,0))])) (bnCanon []))
    = G1 := by
  norm_num [removeEdgeKeys, removeIsolates, bnCanon, canonKey, lexLE, degree, G0, G1]

theorem g0_execute : boundaryNearExecute G0 = G1 := by
  rw [boundaryNearExecute, show G0.edges.length + 1 = 6 from by norm_num [G0]]
  norm_num [boundaryNearLoop, g0_leaves, g1_leaves, g0_pass, g0_removal]
  exact fun h => List.noConfusion h

/-- C4 counterexample.  In `G0` the unprotected leaf path
`(10,0)-(11,0)-(12,0)` is hard-removed by `BoundaryNearPruner` although the
radius of its terminal (junction) node `(12,0)` is 0.5, far above the 0.05
hard floor: the hard branch fires on the 0.04 radius of the NON-terminal
node `(11,0)`.  This refutes "hard-removed exactly when the terminal radius
is at most `boundary_hard_min_radius`". -/
theorem boundaryNear_terminal_radius_cex :
    boundaryNearJudge G0 (metaLookup G0) (10,0)
        = BNJudge.hard [((10,0),(11,0)),((11,0),(12,0))]
    ∧ radiusOf G0 (12,0) = 1/2
    ∧ ¬ (radiusOf G0 (12,0) ≤ 1/20)
    ∧ hasEdge G0 (10,0) (11,0) = true
    ∧ hasEdge (boundaryNearExecute G0) (10,0) (11,0) = false
    ∧ hasEdge (boundaryNearExecute G0) (11,0) (12,0) = false := by
  refine ⟨g0_judge_a, g0_rad_c, by norm_num [g0_rad_c],
    by norm_num [hasEdge, G0], ?_, ?_⟩ <;> rw [g0_execute] <;> norm_num [hasEdge, G1]

/-- C4 amended.  For every graph, every leaf whose traced path is non-empty,
and every non-protected component meta, `BoundaryNearPruner` marks ALL of the
path's edges for hard removal exactly when the MINIMUM radius over all of
the path's nodes (terminal included) is at most the 0.05 hard floor; the
terminal radius alone is neither necessary nor sufficient. -/
theorem boundaryNear_hard_iff_min_path_radius
    (g : NXGraph) (meta : Q2 → Option (ℚ × ℚ)) (leaf : Q2) (path : EdgePathE)
    (htrace : traceLeafToJunction g leaf = some path)
    (hne : path.edges ≠ [])
    (hprot : ∀ m, meta leaf = some m → m.1 < 30 ∧ m.2 < 1) :
    boundaryNearJudge g meta leaf = BNJudge.hard path.edges
      ↔ pyMinList (path.nodes.map (radiusOf g)) MIN_RADIUS ≤ 1/20 := by
  have hprotF : (match meta leaf with
      | some m => decide (30 ≤ m.1) || decide (1 ≤ m.2)
      | none => false) = false := by
    cases hm : meta leaf with
    | none => rfl
    | some m =>
      obtain ⟨h1, h2⟩ := hprot m hm
      simp [not_le.mpr h1, not_le.mpr h2]
  rw [boundaryNearJudge, htrace]
  simp only [if_neg hne, hprotF, Bool.false_eq_true, if_false]
  by_cases hmin : pyMinList (path.nodes.map (radiusOf g)) MIN_RADIUS ≤ 1/20
  · rw [if_pos hmin]
    exact iff_of_true rfl hmin
  · rw [if_neg hmin]
    apply iff_of_false _ hmin
    split
    · simp
    · simp

/-- Witness for `boundaryNear_hard_iff_min_path_radius` at the concrete
graph `G0` and leaf `(10,0)`. -/
theorem boundaryNear_hard_iff_min_path_radius_witness :
    boundaryNearJudge G0 (metaLookup G0) (10,0)
      = BNJudge.hard [((10,0),(11,0)),((11,0),(12,0))] := by
  have h := boundaryNear_hard_iff_min_path_radius G0 (metaLookup G0) (10,0)
      ⟨[(10,0),(11,0),(12,0)], [((10,0),(11,0)),((11,0),(12,0))], 2, (12,0), 1/2⟩
      g0_trace_a (by simp)
      (fun m hm => by
        simp only [g0_meta_a, Option.some.injEq] at hm
        subst hm
        norm_num)
  exact h.mpr (by norm_num [g0_rad_a, g0_rad_b, g0_rad_c, pyMinList, pyMin, MIN_RADIUS])

/-- `_endpoint_heading` (`graph_builder.py` lines 260-270) up to the final
normalisation: the heading at endpoint `node` is the vector from its first
neighbor to the node, `none` when there is no neighbor or the vector is
zero (`ln == 0`).  The angle test consumes only the direction, so the
abstract angle predicate below receives the unnormalised vector. -/
def endpointHeading (g : NXGraph) (node : Q2) : Option Q2 :=
  match neighbors g node with
  | [] => none
  | nb :: _ =>
    let dx := node.1 - nb.1
    let dy := node.2 - nb.2
    if dx = 0 ∧ dy = 0 then none else some (dx, dy)

/-- `nx.Graph.add_edge(a, b, weight=w)`: missing endpoints are created as
attribute-free nodes, and the edge is appended. -/
def addEdge (g : NXGraph) (a b : Q2) (w : ℚ) : NXGraph :=
  let nodes1 := if a ∈ nodeKeys g then g.nodes else g.nodes ++ [(a, none)]
  let nodes2 := if b ∈ nodes1.map Prod.fst then nodes1 else nodes1 ++ [(b, none)]
  { nodes := nodes2, edges := g.edges ++ [⟨a, b, w⟩] }

/-- Body of the pair loop of `_reconnect_directional_breaks`
(`graph_builder.py` lines 187-209).  Geometry-kernel quantities are
parameters: `segLen a b` is the Euclidean length `math.hypot(a-b)`, which
also equals `LineString([a,b]).length`; `angleLE da db` decides
`_angle_between(unit(da), unit(db)) <= policy.reconnect_angle_deg`;
`insideRatio a b` is `length(seg ∩ boundary) / length(seg)`;
`withinBuffer a b` decides
`seg.within(boundary.buffer(policy.reconnect_boundary_buffer_m))`.
Note lines 205-208: the candidate edge is added only when the inside-ratio
test AND the buffer containment BOTH succeed. -/
def reconnectStepPair (segLen : Q2 → Q2 → ℚ) (angleLE : Q2 → Q2 → Bool)
    (insideRatio : Q2 → Q2 → ℚ) (withinBuffer : Q2 → Q2 → Bool)
    (pol : SkeletonPolicy) (g : NXGraph) (ab : Q2 × Q2) : NXGraph :=
  if pol.reconnect_search_radius_m < segLen ab.1 ab.2 then g
  else
    match endpointHeading g ab.1, endpointHeading g ab.2 with
    | some da, some db =>
      if ¬ angleLE da db then g
      else if hasEdge g ab.1 ab.2 then g
      else if segLen ab.1 ab.2 ≤ 0 then g
      else if insideRatio ab.1 ab.2 < pol.reconnect_min_inside_ratio then g
      else if ¬ withinBuffer ab.1 ab.2 then g
      else addEdge g ab.1 ab.2 (segLen ab.1 ab.2)
    | _, _ => g

/-- `_reconnect_directional_breaks` (`graph_builder.py` lines 182-210):
the degree-1 endpoint list is computed once on entry, then every ordered
pair is processed sequentially on the current graph; `boundaryEmpty` is the
early `boundary is None or boundary.is_empty` exit. -/
def reconnectDirectionalBreaks (segLen : Q2 → Q2 → ℚ) (angleLE : Q2 → Q2 → Bool)
    (insideRatio : Q2 → Q2 → ℚ) (withinBuffer : Q2 → Q2 → Bool)
    (pol : SkeletonPolicy) (boundaryEmpty : Bool) (g : NXGraph) : NXGraph :=
  if boundaryEmpty then g
  else (pairsOf (leafNodes g)).foldl
    (reconnectStepPair segLen angleLE insideRatio withinBuffer pol) g

/-- Two collinear horizontal segments whose inner endpoints `(21,0)` and
`(26,0)` are 5 m apart. -/
def G2 : NXGraph :=
  { nodes := [((20,0), some 1), ((21,0), some 1), ((26,0), some 1), ((27,0), some 1)]
    edges := [⟨(20,0),(21,0),1⟩, ⟨(26,0),(27,0),1⟩] }

/-- Euclidean length instantiated exactly for the horizontally collinear
points of `G2` (`|Δx| + |Δy|` agrees with `hypot` when one offset is 0). -/
def segLen2 (p q : Q2) : ℚ := |p.1 - q.1| + |p.2 - q.2|

def angleLE2 (_ _ : Q2) : Bool := true

/-- Kernel instance in which every candidate segment lies fully inside the
boundary geometry (`inside_ratio = 1`)... -/
def insideRatio2 (_ _ : Q2) : ℚ := 1

/-- ...but no candidate segment is `within` the buffered boundary. -/
def withinBuffer2 (_ _ : Q2) : Bool := false

def pol8 : SkeletonPolicy := SkeletonPolicy.from_width_distribution [8]

theorem pol8_reconnect_radius : pol8.reconnect_search_radius_m = 36/5 := by
  norm_num [pol8, SkeletonPolicy.from_width_distribution, widthMedian, clamp, pyMax, pyMin,
    List.insertionSort, List.orderedInsert]

theorem pol8_reconnect_inside : pol8.reconnect_min_inside_ratio = 97/100 := by
  norm_num [pol8, SkeletonPolicy.from_width_distribution, widthMedian, clamp, pyMax, pyMin,
    List.insertionSort, List.orderedInsert]

theorem g2_leaves : leafNodes G2 = [(20,0),(21,0),(26,0),(27,0)] := by
  norm_num [leafNodes, degree, G2]

theorem g2_head_a : endpointHeading G2 (20,0) = some (-1,0) := by
  norm_num [endpointHeading, neighbors, G2]

theorem g2_head_b : endpointHeading G2 (21,0) = some (1,0) := by
  norm_num [endpointHeading, neighbors, G2]

theorem g2_head_c : endpointHeading G2 (26,0) = some (-1,0) := by
  norm_num [endpointHeading, neighbors, G2]

theorem g2_head_d : endpointHeading G2 (27,0) = some (1,0) := by
  norm_num [endpointHeading, neighbors, G2]

theorem reconnectStep_buffer_false_id (pol : SkeletonPolicy) (g : NXGraph) (ab : Q2 × Q2) :
    reconnectStepPair segLen2 angleLE2 insideRatio2 withinBuffer2 pol g ab = g := by
  rw [reconnectStepPair]
  split
  · rfl
  · split
    · simp [angleLE2, withinBuffer2, ite_self]
    · rfl

theorem g2_reconnect_noop :
    reconnectDirectionalBreaks segLen2 angleLE2 insideRatio2 withinBuffer2 pol8 false G2
      = G2 := by
  rw [reconnectDirectionalBreaks, if_neg (by norm_num)]
  generalize pairsOf (leafNodes G2) = ps
  induction ps with
  | nil => rfl
  | cons p t ih =>
    rw [List.foldl_cons, reconnectStep_buffer_false_id]
    exact ih

/-- C1.  The pair of degree-1 endpoints `(21,0)`, `(26,0)` of `G2` passes
the distance check and the heading-angle check, its candidate segment has
`inside_ratio = 1` at least the policy threshold 0.97, yet — because the
segment is not within the buffered boundary — `_reconnect_directional_breaks`
adds NO edge: lines 205-208 require both tests (an AND), not either (the OR
the spec and `test_graph_builder_regressions.py` describe). -/
theorem reconnect_requires_both_gates_cex :
    degree G2 (21,0) = 1
    ∧ degree G2 (26,0) = 1
    ∧ segLen2 (21,0) (26,0) ≤ pol8.reconnect_search_radius_m
    ∧ endpointHeading G2 (21,0) = some (1,0)
    ∧ endpointHeading G2 (26,0) = some (-1,0)
    ∧ angleLE2 (1,0) (-1,0) = true
    ∧ pol8.reconnect_min_inside_ratio ≤ insideRatio2 (21,0) (26,0)
    ∧ withinBuffer2 (21,0) (26,0) = false
    ∧ hasEdge G2 (21,0) (26,0) = false
    ∧ hasEdge (reconnectDirectionalBreaks segLen2 angleLE2 insideRatio2 withinBuffer2
        pol8 false G2) (21,0) (26,0) = false := by
  refine ⟨by norm_num [degree, G2], by norm_num [degree, G2],
    by norm_num [segLen2, pol8_reconnect_radius], g2_head_b, g2_head_c, rfl,
    by norm_num [insideRatio2, pol8_reconnect_inside], rfl,
    by norm_num [hasEdge, G2], ?_⟩
  rw [g2_reconnect_noop]
  norm_num [hasEdge, G2]

/-- Candidate validity test of `SkeletonCandidateSelector.select` line 24 and
`VoronoiGenerator._filter_by_min_width` line 197: skip `None` / empty lines
and lines with `length <= 0` (a shapely length is positive exactly when some
consecutive coordinate pair differs). -/
def lineValid (l : List Q2) : Bool :=
  !l.isEmpty && (l.zip l.tail).any (fun pq => decide (pq.1 ≠ pq.2))

/-- `SkeletonCandidateSelector.select` (`selector.py` lines 21-52), with the
Python attribute lookups on the policy made explicit.  Scoring a valid line
calls `_quality_score`; with a live boundary its first policy attribute read
is `selector_inside_sample_step_m` (`_inside_ratio`, line 66); with an
empty boundary `_inside_ratio` and `_center_proximity_score` return early
and the first read is `selector_length_ref_factor` (`_length_score`, line
164).  `getattr` on the frozen dataclass `SkeletonPolicy` raises
`AttributeError` outside `skeletonPolicyAttrNames`.  Everything after a
successful attribute read (scores, sort, the `selector_min_quality_score`
filter, the `selector_keep_top_ratio` fallback, duplicate suppression) is
abstracted as `rest`, reachable only if the attribute existed. -/
def selectResult (rest : List (List Q2) → List (List Q2))
    (boundaryEmpty : Bool) (lines : List (List Q2)) : Except String (List (List Q2)) :=
  if lines.filter lineValid = [] then .ok []
  else if boundaryEmpty then
    if skeletonPolicyHasAttr "selector_length_ref_factor" then
      .ok (rest (lines.filter lineValid))
    else .error "AttributeError: SkeletonPolicy has no attribute selector_length_ref_factor"
  else
    if skeletonPolicyHasAttr "selector_inside_sample_step_m" then
      .ok (rest (lines.filter lineValid))
    else .error "AttributeError: SkeletonPolicy has no attribute selector_inside_sample_step_m"

/-- C2.  `SkeletonPolicy` (the frozen dataclass of `policy.py`) declares
none of the selector thresholds the selector reads, so for every non-empty
valid candidate list the selection raises `AttributeError` instead of
performing the described filtering — for every derived policy, since the
attribute set of the frozen dataclass does not depend on the instance. -/
theorem selector_missing_policy_attrs (rest : List (List Q2) → List (List Q2))
    (boundaryEmpty : Bool) (lines : List (List Q2))
    (h : lines.filter lineValid ≠ []) :
    (∃ msg, selectResult rest boundaryEmpty lines = .error msg)
    ∧ skeletonPolicyHasAttr "selector_min_quality_score" = false
    ∧ skeletonPolicyHasAttr "selector_inside_sample_step_m" = false
    ∧ skeletonPolicyHasAttr "selector_keep_top_ratio" = false
    ∧ skeletonPolicyHasAttr "selector_length_ref_factor" = false := by
  refine ⟨?_, by decide, by decide, by decide, by decide⟩
  rw [selectResult, if_neg h]
  cases boundaryEmpty with
  | true => exact ⟨_, by rw [if_pos rfl, if_neg (by decide)]⟩
  | false => exact ⟨_, by rw [if_neg (by decide), if_neg (by decide)]⟩

/-- Witness for `selector_missing_policy_attrs`: one unit-length valid
candidate and a live boundary. -/
theorem selector_missing_policy_attrs_witness :
    ∃ msg, selectResult id false [[(30,0),(31,0)]] = .error msg :=
  (selector_missing_policy_attrs id false [[(30,0),(31,0)]]
    (by norm_num [lineValid])).1

/-- Accumulator step for `min_width` in `_filter_by_min_width`
(`generator.py` lines 202-207): over each part containing the midpoint,
accumulate the minimum of `2 * distance(midpoint, part.boundary)`. -/
def minWidthStep {P : Type} (contains : P → Q2 → Bool) (bdist : P → Q2 → ℚ)
    (mid : Q2) (acc : Option ℚ) (poly : P) : Option ℚ :=
  if contains poly mid then
    match acc with
    | none => some (bdist poly mid * 2)
    | some m => some (pyMin m (bdist poly mid * 2))
  else acc

def minWidthOver {P : Type} (contains : P → Q2 → Bool) (bdist : P → Q2 → ℚ)
    (parts : List P) (mid : Q2) : Option ℚ :=
  parts.foldl (minWidthStep contains bdist mid) none

/-- `VoronoiGenerator._filter_by_min_width` (`generator.py` lines 191-210).
The geometry kernel is abstracted: `contains p mid` is `p.contains(mid)`,
`bdist p mid` is `p.boundary.distance(mid)`, `midOf line` is
`line.interpolate(0.5, normalized=True)` (`none` models the
`not isinstance(mid, Point)` skip).  A candidate is appended iff it is
valid, has a midpoint, and `min_width is None or min_width >= min_lane`. -/
def filterByMinWidth {P : Type} (contains : P → Q2 → Bool) (bdist : P → Q2 → ℚ)
    (midOf : List Q2 → Option Q2) (minLane : ℚ) (parts : List P)
    (lines : List (List Q2)) : List (List Q2) :=
  if parts.isEmpty then lines
  else lines.filter (fun line =>
    lineValid line &&
    match midOf line with
    | none => false
    | some mid =>
      match minWidthOver contains bdist parts mid with
      | none => true
      | some mw => decide (minLane ≤ mw))

theorem minWidthFold_some_ne_none {P : Type} (contains : P → Q2 → Bool)
    (bdist : P → Q2 → ℚ) (mid : Q2) (parts : List P) (w : ℚ) :
    parts.foldl (minWidthStep contains bdist mid) (some w) ≠ none := by
  induction parts generalizing w with
  | nil => simp
  | cons p t ih =>
    rw [List.foldl_cons, minWidthStep]
    by_cases hc : contains p mid = true
    · rw [if_pos hc]
      exact ih _
    · rw [if_neg hc]
      exact ih w

theorem minWidthOver_none_iff {P : Type} (contains : P → Q2 → Bool)
    (bdist : P → Q2 → ℚ) (parts : List P) (mid : Q2) :
    minWidthOver contains bdist parts mid = none
      ↔ ∀ p ∈ parts, contains p mid = false := by
  induction parts with
  | nil => simp [minWidthOver]
  | cons p t ih =>
    rw [minWidthOver, List.foldl_cons]
    by_cases hc : contains p mid = true
    · rw [minWidthStep, if_pos hc]
      simp only [minWidthFold_some_ne_none, false_iff]
      intro hall
      rw [hall p (List.mem_cons_self p t)] at hc
      exact Bool.false_ne_true hc
    · rw [minWidthStep, if_neg hc]
      rw [minWidthOver] at ih
      rw [ih]
      constructor
      · intro hall q hq
        rcases List.mem_cons.mp hq with rfl | hq2
        · exact Bool.not_eq_true _ |>.mp hc
        · exact hall q hq2
      · intro hall q hq
        exact hall q (List.mem_cons_of_mem p hq)

/-- C5 counterexample.  A valid candidate whose midpoint lies outside every
polygon part (`contains` is false for all parts) is KEPT by
`_filter_by_min_width` (`min_width is None` appends, `generator.py` line
208), while the claim says it is dropped. -/
theorem filter_outside_midpoint_kept_cex :
    filterByMinWidth (fun (_ : ℕ) (_ : Q2) => false) (fun _ _ => 0)
        (fun _ => some (30,0)) (14/10) [0] [[(30,0),(31,0)]]
      = [[(30,0),(31,0)]]
    ∧ minWidthOver (fun (_ : ℕ) (_ : Q2) => false) (fun _ _ => 0) [0] (30,0) = none
    ∧ (∀ p ∈ [(0 : ℕ)], (fun (_ : ℕ) (_ : Q2) => false) p ((30 : ℚ), (0 : ℚ)) = false) := by
  refine ⟨?_, rfl, by simp⟩
  rw [filterByMinWidth, if_neg (by simp [List.isEmpty_iff])]
  norm_num [lineValid, minWidthOver, minWidthStep]

/-- C5 amended.  With a non-empty part list, a valid candidate with midpoint
`mid` is kept iff the midpoint lies in NO part (kept, not dropped), or the
minimum local width `2 * distance-to-boundary` over the parts containing the
midpoint is at least `min_lane_width_m`. -/
theorem filterByMinWidth_keep_iff {P : Type} (contains : P → Q2 → Bool)
    (bdist : P → Q2 → ℚ) (midOf : List Q2 → Option Q2) (minLane : ℚ)
    (parts : List P) (lines : List (List Q2)) (l : List Q2) (mid : Q2)
    (hparts : parts ≠ []) (hl : l ∈ lines) (hv : lineValid l = true)
    (hm : midOf l = some mid) :
    l ∈ filterByMinWidth contains bdist midOf minLane parts lines
      ↔ ((∀ p ∈ parts, contains p mid = false)
          ∨ ∃ w, minWidthOver contains bdist parts mid = some w ∧ minLane ≤ w) := by
  rw [filterByMinWidth, if_neg (by simp [List.isEmpty_iff, hparts]), List.mem_filter]
  rw [← minWidthOver_none_iff contains bdist parts mid]
  simp only [hl, true_and, hv, Bool.true_and, hm]
  cases hmw : minWidthOver contains bdist parts mid with
  | none => simp
  | some w =>
    simp only [Option.some.injEq, decide_eq_true_eq]
    constructor
    · intro hle
      exact Or.inr ⟨w, rfl, hle⟩
    · intro hor
      rcases hor with hnone | ⟨w2, hw2, hle⟩
      · exact absurd hnone (by simp)
      · cases Option.some.injEq .. ▸ hw2 with
        | refl => exact hle

/-- Witness for `filterByMinWidth_keep_iff`: a single part containing the
midpoint with local width `2 * 1 = 2 ≥ 1.4`. -/
theorem filterByMinWidth_keep_iff_witness :
    [((30:ℚ),(0:ℚ)),((31:ℚ),(0:ℚ))] ∈ filterByMinWidth (fun (_ : ℕ) (_ : Q2) => true)
      (fun _ _ => 1) (fun _ => some (30,0)) (14/10) [0] [[(30,0),(31,0)]] := by
  have h := filterByMinWidth_keep_iff (fun (_ : ℕ) (_ : Q2) => true) (fun _ _ => 1)
    (fun _ => some (30,0)) (14/10) [0] [[(30,0),(31,0)]] [(30,0),(31,0)] (30,0)
    (by simp) (by simp) (by norm_num [lineValid]) rfl
  refine h.mpr (Or.inr ⟨2, ?_, by norm_num⟩)
  norm_num [minWidthOver, minWidthStep]

/-- `GISIO.load` (`gis_io.py` lines 40-58): hard assertions in source order —
non-empty data, CRS present, metre units (`_is_meter_unit`, abstracted as
`isMeter` over the CRS value).  The raised `ValueError`s (messages in the
source are Korean) are modelled as `Except.error`; `@safe_run` logs and
re-raises, preserving the error. -/
def gisLoad {R C : Type} (isMeter : C → Bool) (rows : List R) (crs : Option C) :
    Except String (List R) :=
  if rows.isEmpty then .error "empty input data"
  else
    match crs with
    | none => .error "missing CRS"
    | some c => if isMeter c then .ok rows else .error "CRS unit is not metre"

/-- `SkeletonProcessor.execute` (`processor.py` lines 44-48): an empty input
frame short-circuits to an empty output frame; the non-empty path (policy
derivation, merge, stabilize, candidates, graph, pruners, smoothing) is
abstracted as `rest`. -/
def skeletonExecuteShell {R L : Type} (rest : List R → List L) (rows : List R) : List L :=
  if rows.isEmpty then [] else rest rows

/-- `GISService.run_pipeline` (`gis_service.py` lines 43-79): load, then the
skeleton stage, then topology normalisation (abstracted `topo`), then save
(abstracted; the validator is a read-only observer).  `@safe_run` re-raises,
so an error anywhere surfaces to the caller and no output is produced. -/
def runPipeline {R L C : Type} (isMeter : C → Bool) (rest : List R → List L)
    (topo : List L → List L) (save : List L → Except String String)
    (rows : List R) (crs : Option C) : Except String String :=
  (gisLoad isMeter rows crs).bind (fun g => save (topo (skeletonExecuteShell rest g)))

/-- C9 counterexample.  On an empty input the pipeline raises the loader's
empty-data `ValueError` (for any topology/save stage), contradicting "empty
input produces an empty output and raises no exception". -/
theorem pipeline_empty_input_raises_cex :
    runPipeline (fun (_ : Unit) => true) (fun (rows : List Unit) => rows) id
      (fun _ => .ok "out") ([] : List Unit) (some ()) = .error "empty input data" := rfl

/-- C9 amended.  On an empty input the full pipeline fails in the loader
with the empty-data error and produces no output; the skeleton processor
alone maps an empty (already-loaded) collection to an empty output without
error. -/
theorem pipeline_empty_input_amended {R L C : Type} (isMeter : C → Bool)
    (rest : List R → List L) (topo : List L → List L)
    (save : List L → Except String String) (rows : List R) (crs : Option C)
    (h : rows = []) :
    runPipeline isMeter rest topo save rows crs = .error "empty input data"
    ∧ skeletonExecuteShell rest rows = [] := by
  subst h
  exact ⟨rfl, rfl⟩

/-- Witness for `pipeline_empty_input_amended`. -/
theorem pipeline_empty_input_amended_witness :
    runPipeline (fun (_ : Unit) => true) (fun (rows : List Unit) => rows) id
        (fun _ => .ok "out") ([] : List Unit) none = .error "empty input data"
    ∧ skeletonExecuteShell (fun (rows : List Unit) => rows) ([] : List Unit) = [] :=
  pipeline_empty_input_amended _ _ _ _ [] none rfl

/-- Kept-parts accumulator of `VoronoiGenerator.stabilize_geometry`
(`generator.py` lines 62-78).  Geometry values are modelled by their
polygon-part decomposition: `clean p` is the open-close buffer + simplify +
`buffer(0)` fix of one part (`none` models a raised exception, logged and
skipped); `isEmptyG`/`passes`/`partsOf` model `cleaned.is_empty`,
`_passes_min_width(cleaned)` and the appended non-empty polygon parts of
`cleaned`. -/
def stabilizeStable {P G : Type} (clean : P → Option G) (isEmptyG : G → Bool)
    (passes : G → Bool) (partsOf : G → List P) (polys : List P) : List P :=
  polys.foldr (fun p acc =>
    match clean p with
    | none => acc
    | some c =>
      if isEmptyG c then acc
      else if passes c then partsOf c ++ acc else acc) []

/-- `VoronoiGenerator.stabilize_geometry` (`generator.py` lines 57-86): an
empty input is returned as is; when every part is dropped the ORIGINAL
geometry is returned (lines 80-81); otherwise the union of the kept parts
(union and `buffer(0)` of non-empty polygons, modelled by the part list). -/
def stabilizeGeometry {P G : Type} (clean : P → Option G) (isEmptyG : G → Bool)
    (passes : G → Bool) (partsOf : G → List P) (geom : List P) : List P :=
  if geom.isEmpty then geom
  else if (stabilizeStable clean isEmptyG passes partsOf geom).isEmpty then geom
  else stabilizeStable clean isEmptyG passes partsOf geom

/-- C10.  Stabilization of a non-empty polygon set never yields an empty
result: when every part is dropped (cleaning failure, emptiness, or the
minimum-width filter) the input geometry is returned unchanged. -/
theorem stabilize_nonempty {P G : Type} (clean : P → Option G) (isEmptyG : G → Bool)
    (passes : G → Bool) (partsOf : G → List P) (geom : List P) (h : geom ≠ []) :
    stabilizeGeometry clean isEmptyG passes partsOf geom ≠ []
    ∧ (stabilizeStable clean isEmptyG passes partsOf geom = [] →
        stabilizeGeometry clean isEmptyG passes partsOf geom = geom) := by
  have hF : geom.isEmpty = false := by simp [List.isEmpty_iff, h]
  constructor
  · rw [stabilizeGeometry, hF]
    by_cases hs : stabilizeStable clean isEmptyG passes partsOf geom = []
    · simp only [Bool.false_eq_true, if_false, hs, List.isEmpty_nil, if_true]
      exact h
    · have hsF : (stabilizeStable clean isEmptyG passes partsOf geom).isEmpty = false := by
        simp [List.isEmpty_iff, hs]
      simp only [Bool.false_eq_true, if_false, hsF]
      exact hs
  · intro hs
    rw [stabilizeGeometry, hF, hs]
    simp

/-- Witness for `stabilize_nonempty`: every part's cleaning raises, the
input (one part) is returned unchanged and is non-empty. -/
theorem stabilize_nonempty_witness :
    stabilizeGeometry (fun (_ : ℕ) => (none : Option ℕ)) (fun _ => false)
        (fun _ => true) (fun _ => ([] : List ℕ)) [7] = [7]
    ∧ stabilizeGeometry (fun (_ : ℕ) => (none : Option ℕ)) (fun _ => false)
        (fun _ => true) (fun _ => ([] : List ℕ)) [7] ≠ [] := by
  have h := stabilize_nonempty (fun (_ : ℕ) => (none : Option ℕ)) (fun _ => false)
    (fun _ => true) (fun _ => ([] : List ℕ)) [7] (by simp)
  exact ⟨h.2 rfl, h.1⟩

/-- An edge of the `nx.MultiGraph` built by `IntersectionMerger.execute`
(`topology/strategies.py` lines 98-104): rounded endpoint keys, the multi-
edge key, the geometry's coordinates and its stored `length`. -/
structure MEdge where
  u : Q2
  v : Q2
  key : ℕ
  coords : List Q2
  length : ℚ

structure MultiG where
  edges : List MEdge

/-- Multigraph degree (`graph.degree()`), one count per incidence. -/
def mdegree (g : MultiG) (n : Q2) : ℕ :=
  (g.edges.map (fun e => (if e.u = n then 1 else 0) + (if e.v = n then 1 else 0))).sum

/-- `IntersectionMerger._collect_neighbor_directions` (`strategies.py` lines
179-214): for every incident parallel edge except the excluded bridge
`(ex.1, ex.2.1, ex.2.2)`, emit the vector from `node` to the geometry's
second (resp. second-to-last) coordinate, skipping degenerate geometries,
geometries whose rounded ends do not meet `node`, and zero vectors.  The
source normalises each vector; the parallel-angle predicate that consumes
them is abstracted below, so the unnormalised direction is kept. -/
def collectNeighborDirections (g : MultiG) (node : Q2) (ex : Q2 × Q2 × ℕ) : List Q2 :=
  g.edges.foldr (fun e acc =>
    if e.u = node ∨ e.v = node then
      let neighbor := if e.u = node then e.v else e.u
      if (node = ex.1 ∧ neighbor = ex.2.1 ∧ e.key = ex.2.2)
          ∨ (node = ex.2.1 ∧ neighbor = ex.1 ∧ e.key = ex.2.2) then acc
      else if e.coords.length < 2 then acc
      else
        let cstart := round2 (e.coords.headD (0,0))
        let cstop := round2 (e.coords.getLastD (0,0))
        if cstart = node then
          let ref := e.coords.getD 1 (0,0)
          if ref.1 - node.1 = 0 ∧ ref.2 - node.2 = 0 then acc
          else (ref.1 - node.1, ref.2 - node.2) :: acc
        else if cstop = node then
          let ref := e.coords.getD (e.coords.length - 2) (0,0)
          if ref.1 - node.1 = 0 ∧ ref.2 - node.2 = 0 then acc
          else (ref.1 - node.1, ref.2 - node.2) :: acc
        else acc
    else acc) []

/-- `IntersectionMerger._should_preserve_parallel_corridor` (lines 164-177):
`parB a b` abstracts `degrees(acos(|unit(a) · unit(b)|)) ≤
topology_intersection_parallel_angle_deg` (normalisation does not change
which pairs pass, so `parB` receives the raw direction vectors). -/
def shouldPreserveParallelCorridor (parB : Q2 → Q2 → Bool) (g : MultiG)
    (u v : Q2) (key : ℕ) : Bool :=
  let u_dirs := collectNeighborDirections g u (u, v, key)
  let v_dirs := collectNeighborDirections g v (u, v, key)
  if u_dirs.isEmpty || v_dirs.isEmpty then false
  else u_dirs.any (fun a => v_dirs.any (fun b => parB a b))

/-- The `edge_to_merge` selection of one iteration of the merge loop
(`strategies.py` lines 107-121): the first edge whose endpoints both have
degree at least 3, whose endpoints differ, whose length is at most
`topology_intersection_merge_threshold_m`, and which is NOT vetoed as a
parallel corridor.  Exactly the selected edge is then contracted. -/
def mergeChoice (parB : Q2 → Q2 → Bool) (th : ℚ) (g : MultiG) : Option MEdge :=
  g.edges.find? (fun e =>
    decide (3 ≤ mdegree g e.u) && decide (3 ≤ mdegree g e.v) && decide (e.u ≠ e.v)
    && decide (e.length ≤ th)
    && !(shouldPreserveParallelCorridor parB g e.u e.v e.key))

/-- C7.  In ANY multigraph state of the merge loop (hence in every reachable
one), an edge for which some incident direction at `u` and some incident
direction at `v` (both excluding the bridge) pass the parallel-angle test is
never selected for contraction, whatever the degrees and the length. -/
theorem merger_never_contracts_parallel_corridor (parB : Q2 → Q2 → Bool) (th : ℚ)
    (g : MultiG) (e : MEdge)
    (hpar : ∃ a ∈ collectNeighborDirections g e.u (e.u, e.v, e.key),
            ∃ b ∈ collectNeighborDirections g e.v (e.u, e.v, e.key), parB a b = true) :
    mergeChoice parB th g ≠ some e := by
  intro hfind
  have hp := List.find?_some hfind
  obtain ⟨a, ha, b, hb, hab⟩ := hpar
  have hpres : shouldPreserveParallelCorridor parB g e.u e.v e.key = true := by
    rw [shouldPreserveParallelCorridor]
    have hu : (collectNeighborDirections g e.u (e.u, e.v, e.key)).isEmpty = false := by
      cases hcol : collectNeighborDirections g e.u (e.u, e.v, e.key) with
      | nil => rw [hcol] at ha; exact absurd ha (List.not_mem_nil a)
      | cons x xs => rfl
    have hv : (collectNeighborDirections g e.v (e.u, e.v, e.key)).isEmpty = false := by
      cases hcol : collectNeighborDirections g e.v (e.u, e.v, e.key) with
      | nil => rw [hcol] at hb; exact absurd hb (List.not_mem_nil b)
      | cons x xs => rfl
    rw [hu, hv]
    simp only [Bool.or_self, Bool.false_eq_true, if_false]
    exact List.any_eq_true.mpr ⟨a, ha, List.any_eq_true.mpr ⟨b, hb, hab⟩⟩
  rw [hpres] at hp
  simp at hp

/-- A concrete merger state: the 1 m bridge `(40,0)-(41,0)` between two
degree-3 junctions, with two stub edges on each side. -/
def H0 : MultiG :=
  { edges :=
      [⟨(40,0),(41,0),0,[(40,0),(41,0)],1⟩,
       ⟨(40,0),(39,0),1,[(40,0),(39,0)],1⟩,
       ⟨(40,0),(39,1),2,[(40,0),(39,1)],2⟩,
       ⟨(41,0),(42,0),3,[(41,0),(42,0)],1⟩,
       ⟨(41,0),(42,1),4,[(41,0),(42,1)],2⟩] }

theorem round2_40_0 : round2 ((40 : ℚ), (0 : ℚ)) = (40, 0) := by
  norm_num [round2, pyRound3, pyRoundZ]

theorem round2_41_0 : round2 ((41 : ℚ), (0 : ℚ)) = (41, 0) := by
  norm_num [round2, pyRound3, pyRoundZ]

theorem h0_dirs_u : collectNeighborDirections H0 (40,0) ((40,0),(41,0),0)
    = [(-1,0),(-1,1)] := by
  norm_num [collectNeighborDirections, H0, round2_40_0, round2_41_0, round2, pyRound3,
    pyRoundZ]

theorem h0_dirs_v : collectNeighborDirections H0 (41,0) ((40,0),(41,0),0)
    = [(1,0),(1,1)] := by
  norm_num [collectNeighborDirections, H0, round2_40_0, round2_41_0, round2, pyRound3,
    pyRoundZ]

/-- Witness for `merger_never_contracts_parallel_corridor`: in `H0`, under a
parallel-angle test that accepts every pair, the short bridge between the
two degree-3 junctions is not selected. -/
theorem merger_never_contracts_parallel_corridor_witness :
    mergeChoice (fun _ _ => true) (3/2) H0
      ≠ some ⟨(40,0),(41,0),0,[(40,0),(41,0)],1⟩ := by
  apply merger_never_contracts_parallel_corridor
  refine ⟨(-1,0), ?_, (1,0), ?_, rfl⟩
  · rw [show (⟨(40,0),(41,0),0,[(40,0),(41,0)],1⟩ : MEdge).u = (40,0) from rfl]
    rw [h0_dirs_u]
    exact List.mem_cons_self _ _
  · rw [show (⟨(40,0),(41,0),0,[(40,0),(41,0)],1⟩ : MEdge).v = (41,0) from rfl]
    rw [h0_dirs_v]
    exact List.mem_cons_self _ _

end RoadSkel
